import Mathlib

/-
Shallow embedding of src/app.py (AI Form Generator).
Form specifications are Python dicts produced by json parsing or dict
literals; they are embedded as a Json value type. Machine strings are
Lean strings; Python helpers (lower, split, strip, int, substring
containment) are modelled explicitly below.
-/

/-- Embedding of a Python JSON-like value (dict, list, str, int, bool,
None). Numbers are restricted to integers: no numeric literal in the
source templates or in any verified property is fractional. -/
inductive Json where
| null : Json
| bool (b : Bool) : Json
| num (n : Int) : Json
| str (s : String) : Json
| arr (xs : List Json) : Json
| obj (kvs : List (String × Json)) : Json

/-- Association-list lookup used to model Python dict indexing. -/
def lookupEntries : List (String × Json) → String → Option Json
| [], _ => none
| (k, v) :: rest, key => if k = key then some v else lookupEntries rest key

/-- Model of d[key] and d.get(key) on a Python dict embedded as Json.obj. -/
def Json.lookup : Json → String → Option Json
| Json.obj kvs, k => lookupEntries kvs k
| _, _ => none

/-- Top-level keys of an embedded dict, in insertion order. -/
def objKeys : Json → List String
| Json.obj kvs => kvs.map (fun kv => kv.1)
| _ => []

/-- Model of Python str.lower for the ASCII prompts and keywords used by
the classifier (Lean Char.toLower lowercases the ASCII range). -/
def pyLower (s : String) : String := String.mk (s.data.map Char.toLower)

/-- First n characters of a string, modelling Python slicing s[:n]. -/
def strTake (s : String) (n : Nat) : String := String.mk (s.data.take n)

/-- Prefix test on character lists. -/
def listIsPref : List Char → List Char → Bool
| [], _ => true
| _ :: _, [] => false
| a :: as, b :: bs => a == b && listIsPref as bs

/-- Substring test on character lists. -/
def listSub (p : List Char) : List Char → Bool
| [] => listIsPref p []
| c :: t => listIsPref p (c :: t) || listSub p t

/-- Model of the Python expression (pat in s) on strings. -/
def strContains (s pat : String) : Bool := listSub pat.toList s.toList

/-- Suffix test on strings. -/
def strEndsWith (s post : String) : Bool :=
  listIsPref post.data.reverse s.data.reverse

/-- Whitespace class of Python str.strip and str.split. -/
def pyIsSpace (c : Char) : Bool :=
  c = ' ' || c = '\t' || c = '\n' || c = '\r' || c.toNat = 11 || c.toNat = 12

/-- Model of Python str.strip(). -/
def pyStrip (s : String) : String :=
  String.mk (((s.toList.dropWhile pyIsSpace).reverse.dropWhile pyIsSpace).reverse)

/-- Splitter of Python str.split() on character lists, the current word
carried in reverse. -/
def pySplitAux : List Char → List Char → List String
| [], acc => if acc.isEmpty then [] else [String.mk acc.reverse]
| c :: cs, acc =>
  if pyIsSpace c then
    (if acc.isEmpty then pySplitAux cs [] else String.mk acc.reverse :: pySplitAux cs [])
  else pySplitAux cs (c :: acc)

/-- Model of Python str.split() with no argument: split on whitespace
runs, discarding empty pieces. -/
def pySplit (s : String) : List String := pySplitAux s.data []

/-- Digits of a decimal numeral to a Nat. -/
def digitsToNat (cs : List Char) : Nat :=
  cs.foldl (fun a c => a * 10 + (c.toNat - 48)) 0

/-- Model of Python int(s) on strings: optional surrounding whitespace,
optional sign, decimal digits (digit-group underscores are not
modelled; no verified property depends on them). -/
def pyIntParse (s : String) : Option Int :=
  match (pyStrip s).toList with
  | [] => none
  | '-' :: rest =>
      if rest ≠ [] ∧ rest.all (fun c => c.isDigit) then some (-(digitsToNat rest : Int)) else none
  | '+' :: rest =>
      if rest ≠ [] ∧ rest.all (fun c => c.isDigit) then some ((digitsToNat rest : Int)) else none
  | c :: rest =>
      if (c :: rest).all (fun d => d.isDigit) then some ((digitsToNat (c :: rest) : Int)) else none

/-- Helper to build a template field dict with name, label, field_type,
required and placeholder keys, in source literal order. -/
def mkField (name label ftype : String) (required : Bool) (placeholder : String) : Json :=
  Json.obj [("name", Json.str name), ("label", Json.str label),
    ("field_type", Json.str ftype), ("required", Json.bool required),
    ("placeholder", Json.str placeholder)]

/-- Helper to build a template select or multiselect field dict with an
options list instead of a placeholder. -/
def mkChoiceField (name label ftype : String) (required : Bool) (options : List String) : Json :=
  Json.obj [("name", Json.str name), ("label", Json.str label),
    ("field_type", Json.str ftype), ("required", Json.bool required),
    ("options", Json.arr (options.map Json.str))]

/-- Embedding of SAMPLE_FORM_TEMPLATES["doctor_conference"]. -/
def doctor_conference : Json :=
  Json.obj [
    ("title", Json.str "Doctors\x27 Conference Registration"),
    ("description", Json.str "Register for the Annual Medical Conference"),
    ("fields", Json.arr [
      mkField "name" "Full Name" "text" true "Enter your full name",
      mkField "medical_license" "Medical License Number" "text" true "Enter your medical license number",
      mkChoiceField "specialization" "Specialization" "select" true
        ["Cardiology", "Neurology", "Pediatrics", "Surgery", "Internal Medicine", "Other"],
      mkChoiceField "dietary_restrictions" "Dietary Restrictions" "multiselect" false
        ["Vegetarian", "Vegan", "Gluten-Free", "Dairy-Free", "Nut Allergy", "None"],
      mkField "email" "Email Address" "email" true "Enter your email",
      mkField "phone" "Phone Number" "tel" false "Enter your phone number"])]

/-- Embedding of SAMPLE_FORM_TEMPLATES["fintech_conference"]. -/
def fintech_conference : Json :=
  Json.obj [
    ("title", Json.str "Fintech Conference Registration"),
    ("description", Json.str "Register for the Fintech Innovation Summit"),
    ("fields", Json.arr [
      mkField "name" "Full Name" "text" true "Enter your full name",
      mkField "mobile" "Mobile Number" "tel" true "Enter your mobile number",
      mkField "email" "Email Address" "email" true "Enter your email",
      mkField "company" "Company/Organization" "text" true "Enter your company name",
      mkField "job_title" "Job Title" "text" true "Enter your job title",
      mkField "business_pain_points" "Business Pain Points" "textarea" false
        "Describe your current business challenges...",
      mkChoiceField "topics_interest" "Topics of Interest" "multiselect" false
        ["Blockchain", "Digital Payments", "AI in Finance", "RegTech", "WealthTech", "InsurTech"]])]

/-- Doctor keyword group test from extract_form_requirements: any of the
keywords doctor, medical, license, conference occurs in the lowercased
prompt. -/
def doctorMatch (prompt : String) : Bool :=
  strContains (pyLower prompt) "doctor" || strContains (pyLower prompt) "medical" ||
  strContains (pyLower prompt) "license" || strContains (pyLower prompt) "conference"

/-- Fintech keyword group test from extract_form_requirements: any of
the keywords fintech, business pain, mobile number occurs in the
lowercased prompt. -/
def fintechMatch (prompt : String) : Bool :=
  strContains (pyLower prompt) "fintech" || strContains (pyLower prompt) "business pain" ||
  strContains (pyLower prompt) "mobile number"

/-- The field_type enum of FORM_FIELD_SCHEMA. -/
def fieldTypeEnum : List String :=
  ["text", "email", "number", "tel", "textarea", "select", "multiselect", "date", "checkbox"]

/-- Check that a key, when present, holds a string (a jsonschema
properties entry of type string). -/
def optStrAt (j : Json) (k : String) : Bool :=
  match j.lookup k with
  | some (Json.str _) => true
  | none => true
  | _ => false

/-- Check that a key, when present, holds a boolean. -/
def optBoolAt (j : Json) (k : String) : Bool :=
  match j.lookup k with
  | some (Json.bool _) => true
  | none => true
  | _ => false

/-- Check that every element of a list is a string value. -/
def allStr : List Json → Bool
| [] => true
| Json.str _ :: rest => allStr rest
| _ => false

/-- Check that a key, when present, holds an array of strings. -/
def optStrArrAt (j : Json) (k : String) : Bool :=
  match j.lookup k with
  | some (Json.arr xs) => allStr xs
  | none => true
  | _ => false

/-- Check that a required key is present and holds a string. -/
def strCheckAt (j : Json) (k : String) : Bool :=
  match j.lookup k with
  | some (Json.str _) => true
  | _ => false

/-- Check that the required field_type key holds a string drawn from
the enum of FORM_FIELD_SCHEMA. -/
def fieldTypeCheckAt (j : Json) : Bool :=
  match j.lookup "field_type" with
  | some (Json.str t) => fieldTypeEnum.contains t
  | _ => false

/-- Validation of one element of the fields array against the items
schema of FORM_FIELD_SCHEMA: it must be an object whose required keys
name, label, field_type are present, with field_type in the enum, and
whose optional keys have the schema types when present. -/
def validateField (j : Json) : Bool :=
  match j with
  | Json.obj _ =>
      strCheckAt j "name" && strCheckAt j "label" && fieldTypeCheckAt j &&
      optBoolAt j "required" && optStrAt j "placeholder" &&
      optStrArrAt j "options" && optStrAt j "validation"
  | _ => false

/-- Check that the required fields key holds an array whose items all
satisfy the field item schema. -/
def fieldsCheckAt (j : Json) : Bool :=
  match j.lookup "fields" with
  | some (Json.arr xs) => xs.all validateField
  | _ => false

/-- Embedding of validate(instance, FORM_FIELD_SCHEMA) from jsonschema
as a boolean: true when no ValidationError is raised. The schema
requires a top-level object with a string title and an array fields
whose items satisfy the field item schema; description is an optional
string; the schema places no minimum length on the fields array. -/
def schemaValidate (j : Json) : Bool :=
  match j with
  | Json.obj _ =>
      strCheckAt j "title" && optStrAt j "description" && fieldsCheckAt j
  | _ => false

/-- Model of the regex search for a JSON object in the generator reply:
re.search of open brace, greedy dot-star with DOTALL, close brace. The
match runs from the first open brace to the last close brace of the
whole text, and exists when that span is non-degenerate. -/
def extractJson (content : String) : Option String :=
  let cs := content.toList
  match cs.findIdx? (fun c => c = '\x7b'), cs.reverse.findIdx? (fun c => c = '\x7d') with
  | some i, some jr =>
      let j := cs.length - 1 - jr
      if i < j then some (String.mk ((cs.drop i).take (j - i + 1))) else none
  | _, _ => none

/-- Whitespace skipping of the JSON grammar accepted by json.loads. -/
def skipWs : List Char → List Char
| [] => []
| c :: cs => if c = ' ' || c = '\t' || c = '\n' || c = '\r' then skipWs cs else c :: cs

/-- Hexadecimal digit value for unicode escapes. -/
def hexVal (c : Char) : Option Nat :=
  if c.isDigit then some (c.toNat - 48)
  else if 'a' ≤ c ∧ c ≤ 'f' then some (c.toNat - 87)
  else if 'A' ≤ c ∧ c ≤ 'F' then some (c.toNat - 55)
  else none

/-- Parse a run of decimal digits. -/
def pDigits (cs : List Char) : Option (Nat × List Char) :=
  let p := cs.span (fun c => c.isDigit)
  if p.1.isEmpty then none else some (digitsToNat p.1, p.2)

mutual

/-- Fuel-indexed recursive-descent model of json.loads: parse one JSON
value, returning it with the unconsumed remainder. Numbers are
integers only (see the Json doc comment); every other construct of the
json.loads grammar is covered. -/
def pVal : Nat → List Char → Option (Json × List Char)
| 0, _ => none
| n + 1, cs =>
  match skipWs cs with
  | 'n' :: 'u' :: 'l' :: 'l' :: rest => some (Json.null, rest)
  | 't' :: 'r' :: 'u' :: 'e' :: rest => some (Json.bool true, rest)
  | 'f' :: 'a' :: 'l' :: 's' :: 'e' :: rest => some (Json.bool false, rest)
  | '"' :: rest =>
      (match pStr n [] rest with
       | some (s, r) => some (Json.str s, r)
       | none => none)
  | '\x7b' :: rest =>
      (match skipWs rest with
       | '\x7d' :: r2 => some (Json.obj [], r2)
       | r1 =>
         match pMembers n r1 with
         | some (kvs, r2) => some (Json.obj kvs, r2)
         | none => none)
  | '[' :: rest =>
      (match skipWs rest with
       | ']' :: r2 => some (Json.arr [], r2)
       | r1 =>
         match pElems n r1 with
         | some (xs, r2) => some (Json.arr xs, r2)
         | none => none)
  | '-' :: rest =>
      (match pDigits rest with
       | some (m, r2) => some (Json.num (-(m : Int)), r2)
       | none => none)
  | c :: rest =>
      if c.isDigit then
        match pDigits (c :: rest) with
        | some (m, r2) => some (Json.num (m : Int), r2)
        | none => none
      else none
  | [] => none

/-- Parse the members of a JSON object after its opening brace, first
member pending. -/
def pMembers : Nat → List Char → Option (List (String × Json) × List Char)
| 0, _ => none
| n + 1, cs =>
  match cs with
  | '"' :: rest =>
    (match pStr n [] rest with
     | some (k, r1) =>
       (match skipWs r1 with
        | ':' :: r2 =>
          (match pVal n r2 with
           | some (v, r3) =>
             (match skipWs r3 with
              | ',' :: r4 =>
                (match pMembers n (skipWs r4) with
                 | some (kvs, r5) => some ((k, v) :: kvs, r5)
                 | none => none)
              | '\x7d' :: r4 => some ([(k, v)], r4)
              | _ => none)
           | none => none)
        | _ => none)
     | none => none)
  | _ => none

/-- Parse the elements of a JSON array after its opening bracket, first
element pending. -/
def pElems : Nat → List Char → Option (List Json × List Char)
| 0, _ => none
| n + 1, cs =>
  match pVal n cs with
  | some (v, r1) =>
    (match skipWs r1 with
     | ',' :: r2 =>
       (match pElems n r2 with
        | some (xs, r3) => some (v :: xs, r3)
        | none => none)
     | ']' :: r2 => some ([v], r2)
     | _ => none)
  | none => none

/-- Parse the remainder of a JSON string literal after its opening
quote, with the characters read so far in reverse. Raw control
characters are rejected as in strict json.loads; the escape set is
that of the JSON grammar. -/
def pStr : Nat → List Char → List Char → Option (String × List Char)
| 0, _, _ => none
| n + 1, acc, cs =>
  match cs with
  | '"' :: rest => some (String.mk acc.reverse, rest)
  | '\\' :: e :: rest =>
    (match e with
     | '"' => pStr n ('"' :: acc) rest
     | '\\' => pStr n ('\\' :: acc) rest
     | '/' => pStr n ('/' :: acc) rest
     | 'b' => pStr n (Char.ofNat 8 :: acc) rest
     | 'f' => pStr n (Char.ofNat 12 :: acc) rest
     | 'n' => pStr n ('\n' :: acc) rest
     | 'r' => pStr n ('\r' :: acc) rest
     | 't' => pStr n ('\t' :: acc) rest
     | 'u' =>
       (match rest with
        | a :: b :: c :: d :: r2 =>
          (match hexVal a, hexVal b, hexVal c, hexVal d with
           | some x, some y, some z, some w =>
               pStr n (Char.ofNat (((x * 16 + y) * 16 + z) * 16 + w) :: acc) r2
           | _, _, _, _ => none)
        | _ => none)
     | _ => none)
  | c :: rest => if c.toNat < 32 then none else pStr n (c :: acc) rest
  | [] => none

end

/-- Model of json.loads on a whole string: parse one value and require
only whitespace to remain. -/
def parseJson (s : String) : Option Json :=
  match pVal (2 * s.length + 4) s.toList with
  | some (j, rest) => if (skipWs rest).isEmpty then some j else none
  | none => none

/-- The try-block pipeline of extract_form_requirements applied to the
text returned by the external generator: regex-extract a JSON object
span, json.loads it, and validate it against FORM_FIELD_SCHEMA. Any
failure yields none, which the source turns into the fallback. -/
def extractValidate (content : String) : Option Json :=
  match extractJson content with
  | some s =>
    (match parseJson s with
     | some j => if schemaValidate j then some j else none
     | none => none)
  | none => none

/-- Field dict appended unconditionally by generate_simple_form. -/
def simpleNameField : Json :=
  mkField "name" "Full Name" "text" true "Enter your full name"

/-- Field dict appended by generate_simple_form when an email keyword
occurs. -/
def simpleEmailField : Json :=
  mkField "email" "Email Address" "email" true "Enter your email address"

/-- Field dict appended by generate_simple_form when a phone keyword
occurs. -/
def simplePhoneField : Json :=
  mkField "phone" "Phone Number" "tel" false "Enter your phone number"

/-- Field dict appended by generate_simple_form when a message keyword
occurs. -/
def simpleMessageField : Json :=
  mkField "message" "Message" "textarea" false "Enter your message"

/-- Embedding of generate_simple_form: keyword-conditional field list,
title from the first five words of the prompt that are longer than two
characters, and a description quoting the first fifty characters. -/
def generate_simple_form (prompt : String) : Json :=
  let pl := pyLower prompt
  let fields : List Json :=
    [simpleNameField] ++
    (if strContains pl "email" || strContains pl "contact" || strContains pl "register" then
       [simpleEmailField] else []) ++
    (if strContains pl "phone" || strContains pl "mobile" || strContains pl "contact" then
       [simplePhoneField] else []) ++
    (if strContains pl "message" || strContains pl "comment" || strContains pl "feedback" ||
        strContains pl "description" || strContains pl "pain points" then
       [simpleMessageField] else [])
  let words := ((pySplit prompt).take 5).filter (fun w => w.length > 2)
  let title :=
    if words ≠ [] then String.intercalate " " words ++ " Registration Form"
    else "Custom Registration Form"
  Json.obj [
    ("title", Json.str title),
    ("description", Json.str ("Form generated from: \x27" ++ strTake prompt 50 ++ "...\x27")),
    ("fields", Json.arr fields)]

/-- Embedding of extract_form_requirements. The optional external
generator is represented by ext: none when there is no client or the
use_ai toggle is off, some content when the generator replied with
that text. Keyword groups are checked first; otherwise the reply is
extracted, parsed and schema-validated, any failure falling back to
generate_simple_form. -/
def extract_form_requirements (prompt : String) (ext : Option String) : Json :=
  if doctorMatch prompt then doctor_conference
  else if fintechMatch prompt then fintech_conference
  else
    match ext with
    | some content =>
      (match extractValidate content with
       | some spec => spec
       | none => generate_simple_form prompt)
    | none => generate_simple_form prompt

/-- Title of a form spec dict, when present as a string. -/
def titleOf (j : Json) : Option String :=
  match j.lookup "title" with
  | some (Json.str s) => some s
  | _ => none

/-- Names of the fields of a form spec dict, in order. -/
def fieldNames (j : Json) : List String :=
  match j.lookup "fields" with
  | some (Json.arr xs) =>
      xs.filterMap (fun f =>
        match f.lookup "name" with
        | some (Json.str s) => some s
        | _ => none)
  | _ => []

/-- Fields array of a form spec dict, when present. -/
def fieldsOf (j : Json) : Option (List Json) :=
  match j.lookup "fields" with
  | some (Json.arr xs) => some xs
  | _ => none

/-- Runtime value held in a form-state slot or in form_data. The
constructors cover every Python value the renderer can store: strings,
booleans from checkboxes, lists of strings from multiselects, plus
numbers and None so that their absence from collected data is a
provable fact rather than a typing artefact. -/
inductive Value where
| vStr (s : String) : Value
| vBool (b : Bool) : Value
| vList (l : List String) : Value
| vNum (n : Int) : Value
| vNull : Value
deriving DecidableEq, Repr

/-- The form_data dict collected by render_form, in insertion order. -/
abbrev FormState : Type := List (String × Value)

/-- Python truthiness of a runtime value, used by the number seeding
and by str conversion sites. -/
def valueTruthy : Value → Bool
| Value.vStr s => s ≠ ""
| Value.vBool b => b
| Value.vList l => l ≠ []
| Value.vNum n => n ≠ 0
| Value.vNull => false

/-- Embedding of a runtime value into the exported JSON. -/
def encodeValue : Value → Json
| Value.vStr s => Json.str s
| Value.vBool b => Json.bool b
| Value.vList l => Json.arr (l.map Json.str)
| Value.vNum n => Json.num n
| Value.vNull => Json.null

/-- Embedding of form_data into the exported JSON object. -/
def encodeState (fd : FormState) : Json :=
  Json.obj (fd.map (fun kv => (kv.1, encodeValue kv.2)))

/-- Inverse of the string-list embedding, for reading an export back. -/
def decodeStrs : List Json → Option (List String)
| [] => some []
| Json.str s :: rest => (decodeStrs rest).map (fun l => s :: l)
| _ => none

/-- Structured view of one field dict as consumed by render_form and
display_form_data: name, label and field_type are read by indexing,
required, placeholder and options by dict get with defaults. -/
structure FieldSpec where
  name : String
  label : String
  field_type : String
  required : Bool
  placeholder : String
  options : List String
deriving DecidableEq, Repr

/-- Structured view of a form spec dict as consumed by render_form and
display_form_data: its title and its fields. -/
structure FormSpecS where
  title : String
  fields : List FieldSpec
deriving DecidableEq, Repr

/-- Read a string out of an optional Json value. -/
def asStr : Option Json → Option String
| some (Json.str s) => some s
| _ => none

/-- Decode one field dict into its structured view; fails when a key
that the renderer indexes unconditionally is missing. -/
def decodeField (j : Json) : Option FieldSpec :=
  match asStr (j.lookup "name"), asStr (j.lookup "label"), asStr (j.lookup "field_type") with
  | some n, some l, some t =>
      some { name := n, label := l, field_type := t,
             required := (match j.lookup "required" with | some (Json.bool b) => b | _ => false),
             placeholder := (asStr (j.lookup "placeholder")).getD "",
             options := (match j.lookup "options" with
                         | some (Json.arr xs) => (decodeStrs xs).getD []
                         | _ => []) }
  | _, _, _ => none

/-- Decode a list of field dicts. -/
def decodeFields : List Json → Option (List FieldSpec)
| [] => some []
| j :: rest =>
  (match decodeField j, decodeFields rest with
   | some f, some fs => some (f :: fs)
   | _, _ => none)

/-- Decode a form spec dict into its structured view. -/
def decodeSpec (j : Json) : Option FormSpecS :=
  match asStr (j.lookup "title"),
        (match j.lookup "fields" with
         | some (Json.arr xs) => decodeFields xs
         | _ => none) with
  | some t, some fs => some ⟨t, fs⟩
  | _, _ => none

/-- Seed computed by the number branch of render_form from the prior
session value: int of the value when it is truthy and parses, zero
when it is falsy or int raises. -/
def seedNum : Value → Int
| Value.vStr s => if s = "" then 0 else (pyIntParse s).getD 0
| Value.vBool b => if b then 1 else 0
| Value.vList _ => 0
| Value.vNum n => n
| Value.vNull => 0

/-- Final value reported by the interactive widget of one field, as the
UI framework returns it: text-like widgets and the selectbox return a
string, the number input returns an integer or is left at its seeded
default, the multiselect returns a list of the chosen options, the
date input returns a date rendered as a string or none, the checkbox
returns a boolean. -/
inductive WidgetOut where
| outStr (s : String) : WidgetOut
| outNum (n : Option Int) : WidgetOut
| outList (l : List String) : WidgetOut
| outDate (d : Option String) : WidgetOut
| outBool (b : Bool) : WidgetOut
deriving DecidableEq, Repr

/-- Per-field collection logic of render_form: the branch on field_type
stores the widget value into form_data. Text, email, tel, textarea and
select store the returned string; number stores str of the returned
integer, the untouched widget returning the seed; multiselect stores
the returned list; date stores str of the date when one is set and the
empty string otherwise; checkbox stores the boolean. A field_type
outside the nine handled tags matches no branch and stores nothing,
and a widget return of the wrong shape cannot arise. -/
def collectField (f : FieldSpec) (current : Value) (o : WidgetOut) : Option Value :=
  if f.field_type = "text" then
    (match o with | WidgetOut.outStr s => some (Value.vStr s) | _ => none)
  else if f.field_type = "email" then
    (match o with | WidgetOut.outStr s => some (Value.vStr s) | _ => none)
  else if f.field_type = "number" then
    (match o with
     | WidgetOut.outNum v => some (Value.vStr (toString (v.getD (seedNum current))))
     | _ => none)
  else if f.field_type = "tel" then
    (match o with | WidgetOut.outStr s => some (Value.vStr s) | _ => none)
  else if f.field_type = "textarea" then
    (match o with | WidgetOut.outStr s => some (Value.vStr s) | _ => none)
  else if f.field_type = "select" then
    (match o with | WidgetOut.outStr s => some (Value.vStr s) | _ => none)
  else if f.field_type = "multiselect" then
    (match o with | WidgetOut.outList l => some (Value.vList l) | _ => none)
  else if f.field_type = "date" then
    (match o with | WidgetOut.outDate d => some (Value.vStr (d.getD "")) | _ => none)
  else if f.field_type = "checkbox" then
    (match o with | WidgetOut.outBool b => some (Value.vBool b) | _ => none)
  else none

/-- Embedding of the collection loop of render_form: iterate the fields
in order with their index, each field reading its session slot and its
widget value, and store the collected values into form_data under the
field name. -/
def renderCollect (fields : List FieldSpec) (current : Nat → Value) (outs : Nat → WidgetOut) :
    FormState :=
  fields.enum.filterMap (fun p =>
    (collectField p.2 (current p.1) (outs p.1)).map (fun v => (p.2.name, v)))

/-- Value column of one row of the human view of display_form_data: the
literal Not provided for values equal to None, the empty string or the
empty list; otherwise lists joined by comma-space (the None selected
arm mirrors the dead source branch) and scalars via str. -/
def displayValue (v : Value) : String :=
  if v = Value.vNull ∨ v = Value.vStr "" ∨ v = Value.vList [] then "Not provided"
  else
    match v with
    | Value.vList l => if l.isEmpty then "None selected" else String.intercalate ", " l
    | Value.vStr s => s
    | Value.vBool b => if b then "True" else "False"
    | Value.vNum n => toString n
    | Value.vNull => "None"

/-- Human view of display_form_data as label and value columns, one row
per form_data entry in order, the label resolved from the spec fields
by name with the name itself as fallback. -/
def displayRows (fd : FormState) (fields : List FieldSpec) : List (String × String) :=
  fd.map (fun kv =>
    (((fields.find? (fun f => f.name = kv.1)).map FieldSpec.label).getD kv.1,
     displayValue kv.2))

/-- Metadata entry of the JSON export for one field. -/
def metaField (f : FieldSpec) : Json :=
  Json.obj [("name", Json.str f.name), ("label", Json.str f.label),
            ("type", Json.str f.field_type)]

/-- The output_json dict built by display_form_data: form title, the
raw submitted data, and per-field metadata. -/
def outputJson (fd : FormState) (spec : FormSpecS) : Json :=
  Json.obj [
    ("form_title", Json.str spec.title),
    ("submitted_data", encodeState fd),
    ("metadata", Json.obj [("fields", Json.arr (spec.fields.map metaField))])]

/-- Lowercase hexadecimal digit. -/
def hexDigit (n : Nat) : Char :=
  if n < 10 then Char.ofNat (48 + n) else Char.ofNat (87 + n)

/-- Four lowercase hexadecimal digits, as json.dumps writes unicode
escapes. -/
def hex4 (n : Nat) : String :=
  String.mk [hexDigit (n / 4096 % 16), hexDigit (n / 256 % 16),
             hexDigit (n / 16 % 16), hexDigit (n % 16)]

/-- Escaping of one character in a json.dumps string literal with the
default ensure_ascii: the two-character escapes, unicode escapes for
the remaining control characters, ASCII verbatim, and unicode escapes
(with surrogate pairs beyond the basic plane) for everything else. -/
def escChar (c : Char) : String :=
  if c = '"' then "\\\""
  else if c = '\\' then "\\\\"
  else if c = '\n' then "\\n"
  else if c = '\t' then "\\t"
  else if c = '\r' then "\\r"
  else if c.toNat = 8 then "\\b"
  else if c.toNat = 12 then "\\f"
  else if c.toNat < 32 then "\\u" ++ hex4 c.toNat
  else if c.toNat < 127 then String.singleton c
  else if c.toNat ≤ 65535 then "\\u" ++ hex4 c.toNat
  else
    "\\u" ++ hex4 (55296 + (c.toNat - 65536) / 1024) ++
    "\\u" ++ hex4 (56320 + (c.toNat - 65536) % 1024)

/-- JSON string literal as json.dumps writes it. -/
def pyQuote (s : String) : String :=
  "\"" ++ String.join (s.toList.map escChar) ++ "\""

/-- Run of spaces for one indentation level. -/
def pad (n : Nat) : String := String.mk (List.replicate n ' ')

/-- Serialization of a Json value as json.dumps renders it with a
numeric indent: scalars inline, non-empty containers opened on their
own line with each item on a line indented one level deeper, items
separated by a comma, keys separated from values by colon-space. -/
def renderJson (ind level : Nat) : Json → String
| Json.null => "null"
| Json.bool b => if b then "true" else "false"
| Json.num n => toString n
| Json.str s => pyQuote s
| Json.arr [] => "[]"
| Json.arr (x :: xs) =>
    "[\n" ++
    String.intercalate ",\n"
      (((x :: xs).attach).map (fun p => pad (ind * (level + 1)) ++ renderJson ind (level + 1) p.1)) ++
    "\n" ++ pad (ind * level) ++ "]"
| Json.obj [] => "\x7b\x7d"
| Json.obj (kv :: kvs) =>
    "\x7b\n" ++
    String.intercalate ",\n"
      (((kv :: kvs).attach).map (fun p =>
        pad (ind * (level + 1)) ++ pyQuote p.1.1 ++ ": " ++ renderJson ind (level + 1) p.1.2)) ++
    "\n" ++ pad (ind * level) ++ "\x7d"
termination_by j => sizeOf j
decreasing_by
  all_goals
    simp_wf
    have h := List.sizeOf_lt_of_mem p.2
    cases hp : p.1
    all_goals simp_all
    all_goals omega

/-- Model of json.dumps(j, indent=ind) at the top level. -/
def pyJsonDumps (ind : Nat) (j : Json) : String := renderJson ind 0 j

/-- The json_str that display_form_data shows and offers for download:
json.dumps of output_json with indent two. -/
def jsonExportString (fd : FormState) (spec : FormSpecS) : String :=
  pyJsonDumps 2 (outputJson fd spec)

/-- The file_name argument of the download button. -/
def download_file_name : String := "form_submission.json"

/-- Structured view of the doctor conference template as the renderer
and presenter consume it. -/
def doctorSpecS : FormSpecS := (decodeSpec doctor_conference).getD ⟨"", []⟩

/-- Widget values of a doctor-form submission in which every text-like
field is filled and the dietary restrictions multiselect is left with
nothing selected. -/
def dietaryOuts : Nat → WidgetOut := fun i =>
  match i with
  | 0 => WidgetOut.outStr "Dr. Alice Smith"
  | 1 => WidgetOut.outStr "ML-12345"
  | 2 => WidgetOut.outStr "Cardiology"
  | 3 => WidgetOut.outList []
  | 4 => WidgetOut.outStr "alice@example.org"
  | _ => WidgetOut.outStr "555-0100"

/-- The form_data collected for that doctor-form submission. -/
def dietarySubmission : FormState :=
  renderCollect doctorSpecS.fields (fun _ => Value.vStr "") dietaryOuts

/-- C1 (amended): for every prompt whose lowercasing contains fintech,
business pain, or mobile number (the third keyword of the source is
mobile number, not mobile) and which does not match the doctor keyword
group, extract_form_requirements returns the fintech conference
template, whatever the external generator would reply. -/
theorem extract_fintech_keyword_group (prompt : String) (ext : Option String)
    (hd : doctorMatch prompt = false)
    (hf : strContains (pyLower prompt) "fintech" = true ∨
          strContains (pyLower prompt) "business pain" = true ∨
          strContains (pyLower prompt) "mobile number" = true) :
    extract_form_requirements prompt ext = fintech_conference := by
  have hf2 : fintechMatch prompt = true := by
    rcases hf with h | h | h <;> simp [fintechMatch, h]
  simp [extract_form_requirements, hd, hf2]

/-- Witness for C1: the prompt fintech summit contains fintech, misses
the doctor group, and classifies to the fintech template. -/
theorem extract_fintech_keyword_group_witness :
    doctorMatch "fintech summit" = false ∧
    extract_form_requirements "fintech summit" none = fintech_conference :=
  ⟨by decide, extract_fintech_keyword_group "fintech summit" none (by decide) (Or.inl (by decide))⟩

/-- Counterexample for C1 as stated: the prompt my mobile contains
mobile and misses the doctor group, yet is not classified to the
fintech template, because the source keyword is mobile number. -/
theorem mobile_prompt_not_fintech :
    strContains (pyLower "my mobile") "mobile" = true ∧
    doctorMatch "my mobile" = false ∧
    extract_form_requirements "my mobile" none ≠ fintech_conference := by
  refine ⟨by decide, by decide, ?_⟩
  intro h
  have e1 : titleOf (extract_form_requirements "my mobile" none) =
      some "mobile Registration Form" := rfl
  have h2 : titleOf (extract_form_requirements "my mobile" none) = titleOf fintech_conference :=
    congrArg titleOf h
  rw [e1] at h2
  rw [show titleOf fintech_conference = some "Fintech Conference Registration" from rfl] at h2
  exact absurd h2 (by decide)

/-- C2 (amended): the contact-form prompt matches neither keyword group
and, with the external generator disabled, the local synthesizer
returns a spec with exactly the four fields name (text, required),
email (email, required), phone (tel, optional) and message (textarea)
in that order, the word contact also triggering the phone rule, with a
title ending in Registration Form. -/
theorem contact_prompt_simple_form :
    extract_form_requirements "Create a contact form with name, email, and message" none =
      Json.obj [
        ("title", Json.str "Create contact form with Registration Form"),
        ("description",
         Json.str "Form generated from: \x27Create a contact form with name, email, and messag...\x27"),
        ("fields", Json.arr [simpleNameField, simpleEmailField, simplePhoneField, simpleMessageField])] ∧
    strEndsWith "Create contact form with Registration Form" "Registration Form" = true :=
  ⟨rfl, by decide⟩

/-- Counterexample for C2 as stated: the resulting spec does not have
the three fields name, email, message, since the word contact also
adds a phone field. -/
theorem contact_prompt_field_list_counterexample :
    fieldNames (extract_form_requirements "Create a contact form with name, email, and message" none) ≠
      ["name", "email", "message"] := by decide

/-- Extraction lemma: a successful required string check yields the
string it found. -/
theorem strCheckAt_shape {j : Json} {k : String} (h : strCheckAt j k = true) :
    ∃ s, j.lookup k = some (Json.str s) := by
  unfold strCheckAt at h
  split at h
  · rename_i s heq
    exact ⟨s, heq⟩
  · exact absurd h (by simp)

/-- Extraction lemma: a successful field_type check yields a string in
the enum. -/
theorem fieldTypeCheckAt_shape {j : Json} (h : fieldTypeCheckAt j = true) :
    ∃ t, j.lookup "field_type" = some (Json.str t) ∧ fieldTypeEnum.contains t = true := by
  unfold fieldTypeCheckAt at h
  split at h
  · rename_i t heq
    exact ⟨t, heq, h⟩
  · exact absurd h (by simp)

/-- Extraction lemma: a successful fields check yields an array of
individually valid field objects. -/
theorem fieldsCheckAt_shape {j : Json} (h : fieldsCheckAt j = true) :
    ∃ xs, j.lookup "fields" = some (Json.arr xs) ∧ ∀ f ∈ xs, validateField f = true := by
  unfold fieldsCheckAt at h
  split at h
  · rename_i xs heq
    exact ⟨xs, heq, by simpa [List.all_eq_true] using h⟩
  · exact absurd h (by simp)

/-- Extraction lemma: a valid field object carries a string name, a
string label, and a field_type from the enum. -/
theorem validateField_shape {f : Json} (h : validateField f = true) :
    (∃ s, f.lookup "name" = some (Json.str s)) ∧
    (∃ s, f.lookup "label" = some (Json.str s)) ∧
    (∃ t, f.lookup "field_type" = some (Json.str t) ∧ fieldTypeEnum.contains t = true) := by
  cases f with
  | obj kvs =>
      simp only [validateField, Bool.and_eq_true, and_assoc] at h
      obtain ⟨h1, h2, h3, _⟩ := h
      exact ⟨strCheckAt_shape h1, strCheckAt_shape h2, fieldTypeCheckAt_shape h3⟩
  | null => simp [validateField] at h
  | bool b => simp [validateField] at h
  | num n => simp [validateField] at h
  | str s => simp [validateField] at h
  | arr xs => simp [validateField] at h

/-- C3 (amended): schema validation rejects any candidate whose title
is missing or not a string or whose fields key is missing or not an
array, and every field object of an accepted candidate carries name,
label and a field_type from the nine-value enum; but the schema does
not require the fields array to be non-empty, and a spec with an
empty fields array is accepted. -/
theorem schema_validate_shape :
    (∀ j, schemaValidate j = true →
      (∃ s, j.lookup "title" = some (Json.str s)) ∧
      (∃ xs, j.lookup "fields" = some (Json.arr xs) ∧
        ∀ f ∈ xs,
          (∃ s, f.lookup "name" = some (Json.str s)) ∧
          (∃ s, f.lookup "label" = some (Json.str s)) ∧
          (∃ t, f.lookup "field_type" = some (Json.str t) ∧ fieldTypeEnum.contains t = true))) ∧
    schemaValidate (Json.obj [("title", Json.str "Contact"), ("fields", Json.arr [])]) = true := by
  constructor
  · intro j h
    cases j with
    | obj kvs =>
        simp only [schemaValidate, Bool.and_eq_true, and_assoc] at h
        obtain ⟨h1, _h2, h3⟩ := h
        obtain ⟨xs, hxs, hall⟩ := fieldsCheckAt_shape h3
        exact ⟨strCheckAt_shape h1, xs, hxs, fun f hf => validateField_shape (hall f hf)⟩
    | null => simp [schemaValidate] at h
    | bool b => simp [schemaValidate] at h
    | num n => simp [schemaValidate] at h
    | str s => simp [schemaValidate] at h
    | arr xs => simp [schemaValidate] at h
  · decide

/-- Witness for C3: the doctor template passes validation, and the
theorem yields its string title. -/
theorem schema_validate_shape_witness :
    ∃ s, doctor_conference.lookup "title" = some (Json.str s) :=
  (schema_validate_shape.1 doctor_conference (by decide)).1

/-- Counterexample for C3 as stated: FORM_FIELD_SCHEMA places no lower
bound on the length of the fields array, so a candidate with an empty
fields array passes validation rather than being rejected. -/
theorem empty_fields_accepted :
    schemaValidate (Json.obj [("title", Json.str "T"), ("fields", Json.arr [])]) = true := by
  decide

/-- C5: for every non-empty prompt that matches neither the doctor nor
the fintech keyword group, with the external generator disabled, the
locally synthesized spec carries the required name text field as its
first field. -/
theorem simple_form_name_field_first (prompt : String)
    (_h0 : prompt ≠ "") (hd : doctorMatch prompt = false) (hf : fintechMatch prompt = false) :
    ∃ rest, fieldsOf (extract_form_requirements prompt none) =
      some (mkField "name" "Full Name" "text" true "Enter your full name" :: rest) := by
  simp only [extract_form_requirements, hd, hf, Bool.false_eq_true, if_false]
  exact ⟨_, rfl⟩

/-- Witness for C5: the prompt hello world misses both keyword groups
and synthesizes a form starting with the name field. -/
theorem simple_form_name_field_first_witness :
    ∃ rest, fieldsOf (extract_form_requirements "hello world" none) =
      some (mkField "name" "Full Name" "text" true "Enter your full name" :: rest) :=
  simple_form_name_field_first "hello world" (by decide) (by decide) (by decide)

/-- C6: the export uses the download file name form_submission.json and
json.dumps with indent two; its top-level keys are exactly form_title,
submitted_data and metadata in that order; metadata holds one entry
with key fields listing, per spec field in order, an object with
exactly the keys name, label and type; and exports of identical
inputs are byte-identical. -/
theorem json_export_shape :
    download_file_name = "form_submission.json" ∧
    (∀ (fd : FormState) (spec : FormSpecS),
      jsonExportString fd spec = pyJsonDumps 2 (outputJson fd spec)) ∧
    (∀ (fd : FormState) (spec : FormSpecS),
      objKeys (outputJson fd spec) = ["form_title", "submitted_data", "metadata"]) ∧
    (∀ (fd : FormState) (spec : FormSpecS),
      (outputJson fd spec).lookup "metadata" =
        some (Json.obj [("fields", Json.arr (spec.fields.map (fun f =>
          Json.obj [("name", Json.str f.name), ("label", Json.str f.label),
                    ("type", Json.str f.field_type)])))])) ∧
    (∀ (fd1 : FormState) (spec1 : FormSpecS) (fd2 : FormState) (spec2 : FormSpecS),
      fd1 = fd2 → spec1 = spec2 → jsonExportString fd1 spec1 = jsonExportString fd2 spec2) := by
  refine ⟨rfl, fun fd spec => rfl, fun fd spec => rfl, fun fd spec => ?_, ?_⟩
  · show some (Json.obj [("fields", Json.arr (spec.fields.map metaField))]) = _
    simp [metaField]
  · intro fd1 spec1 fd2 spec2 h1 h2
    rw [h1, h2]

/-- Witness for C6: the determinism conjunct applied at a concrete
submission. -/
theorem json_export_shape_witness :
    jsonExportString [("name", Value.vStr "Ada")] ⟨"T", []⟩ =
      jsonExportString [("name", Value.vStr "Ada")] ⟨"T", []⟩ :=
  json_export_shape.2.2.2.2 [("name", Value.vStr "Ada")] ⟨"T", []⟩
    [("name", Value.vStr "Ada")] ⟨"T", []⟩ rfl rfl

/-- C9 (amended): submitting the doctor form with the dietary
restrictions multiselect left unselected shows the human-view row
Dietary Restrictions with value Not provided, and the JSON export
holds an empty list under submitted_data.dietary_restrictions (the
field name in the template; there is no key named dietary). -/
theorem dietary_unselected_display :
    ("Dietary Restrictions", "Not provided") ∈ displayRows dietarySubmission doctorSpecS.fields ∧
    ((outputJson dietarySubmission doctorSpecS).lookup "submitted_data").bind
      (fun j => j.lookup "dietary_restrictions") = some (Json.arr []) := by
  constructor
  · decide
  · rfl

/-- Counterexample for C9 as stated: the export has no key named
dietary under submitted_data at all, so submitted_data.dietary is not
an empty list. -/
theorem dietary_key_absent :
    ((outputJson dietarySubmission doctorSpecS).lookup "submitted_data").bind
      (fun j => j.lookup "dietary") = none := rfl

